import Mathlib

/-!
Verification development for the n3n supernode management plane
(`src/management.c`) and supernode CLI / signal handling
(`apps/supernode.c`).

The C code is shallowly embedded: module-static state and the fields of
`struct n3n_runtime_data` that the management handlers read become a Lean
record `RuntimeData`; each C handler becomes a pure function from that
record (plus the request data) to an updated record, an HTTP response and
a list of socket-level side effects (`MgmtAction`).  Machine integers are
modelled as `Nat` (all the management counters are only ever printed);
C strings become Lean `String`/`List Char`, with NUL-termination modelled
explicitly where it matters (the `strncpy` id buffer).
-/

namespace N3nSpec

/-- IPv4 subnet as stored in the C type behind `auto_ip_net` and
`dev_addr`: a host-order 32-bit address plus a prefix length. -/
structure IpSubnet where
  net_addr : Nat
  net_bitlen : Nat
deriving Repr, DecidableEq

/-- Peer entry (`struct peer_info`) restricted to the fields that the
management handlers in `src/management.c` read.  Socket addresses are
abstracted to their textual rendering (the output of the external helper
`sock_to_cstr`), as the handlers only ever print them. -/
structure PeerInfo where
  mac_addr : List Nat
  sock : String
  dev_addr : IpSubnet
  purgeable : Bool
  is_local : Bool
  dev_desc : String
  last_p2p : Int
  last_sent_query : Int
  last_seen : Int
  version : String
  uptime : Int
  selection : String
deriving Repr, DecidableEq

/-- Community entry (`struct sn_community`) restricted to the fields read
by `jsonrpc_get_communities` and `jsonrpc_get_edges`. -/
structure SnCommunity where
  community : String
  is_federation : Bool
  purgeable : Bool
  auto_ip_net : IpSubnet
  edges : List PeerInfo
deriving Repr, DecidableEq

/-- Modelled from the spec: the per-community header-encryption setting;
only the comparison against `HEADER_ENCRYPTION_NONE` is observable in the
code under `src/`. -/
inductive HeaderEncryption
  | hdr_none
  | hdr_enabled
deriving Repr, DecidableEq

/-- Event topics: the closed enum `n3n_event_topic` indexing
`mgmt_event_subscribers` (values DEBUG, TEST, PEER). -/
inductive Topic
  | debug
  | test
  | peer
deriving Repr, DecidableEq

/-- Socket-level side effects performed by the event subsystem
(`close` and `write`/`sb_write` calls), in program order. -/
inductive MgmtAction
  | closeSock (fd : Int)
  | writeSock (fd : Int) (data : String)
deriving Repr, DecidableEq

/-- One management connection as seen by the handlers: its file
descriptor and the raw request text in `conn->request`. -/
structure Conn where
  fd : Int
  request : String
deriving Repr, DecidableEq

/-- An HTTP response as assembled by `generate_http_headers` plus the
reply body: status code, Content-Type and body text. -/
structure HttpResponse where
  code : Nat
  content_type : String
  body : String
deriving Repr, DecidableEq

/-- The slice of `struct n3n_runtime_data` (plus the module-static
globals of `management.c` and `logging.c`) that the embedded code reads
and writes.  `sub_debug`/`sub_test`/`sub_peer` model the static array
`mgmt_event_subscribers` (-1 = no subscriber); `traceLevel` models the
logging library's global; `peername` models the kernel's answer to
`getpeername`+`getnameinfo` for a connected socket. -/
structure RuntimeData where
  keep_running : Bool
  traceLevel : Nat
  communities : List SnCommunity
  pending_peers : List PeerInfo
  known_peers : List PeerInfo
  conf_community_name : String
  conf_header_encryption : HeaderEncryption
  conf_is_edge : Bool
  conf_is_supernode : Bool
  conf_supernodes : List PeerInfo
  conf_preferred_sock : String
  device_mac_addr : List Nat
  device_ip_addr : Nat
  curr_sn : Option Nat
  sn_wait : Bool
  last_register_req : Nat
  last_p2p : Int
  last_sup : Int
  last_sweep : Int
  last_sn_fwd : Int
  last_sn_reg : Int
  start_time : Nat
  transop_tx_cnt : Nat
  transop_rx_cnt : Nat
  stats_tx_p2p : Nat
  stats_rx_p2p : Nat
  stats_tx_sup : Nat
  stats_rx_sup : Nat
  stats_tx_sup_broadcast : Nat
  stats_rx_sup_broadcast : Nat
  stats_tx_tuntap_error : Nat
  stats_rx_tuntap_error : Nat
  stats_tx_multicast_drop : Nat
  stats_rx_multicast_drop : Nat
  stats_sn_fwd : Nat
  stats_sn_broadcast : Nat
  stats_sn_reg : Nat
  stats_sn_reg_nak : Nat
  stats_sn_errors : Nat
  community_file : Option (List String)
  allowed_communities : List String
  min_auto_ip_net : IpSubnet
  max_auto_ip_net : IpSubnet
  sub_debug : Int
  sub_test : Int
  sub_peer : Int
  peername : Int → Option (String × String)

/- ===================== string helpers ===================== -/

/-- Rendering of a C `int`-valued boolean with printf `%i`. -/
def cBool (b : Bool) : String := if b then "1" else "0"

/-- Rendering of a C `bool` with printf `%u` (as in `jsonrpc_stop`). -/
def cBoolNat (b : Bool) : Nat := if b then 1 else 0

/-- Uppercase hex digit, as used by `macaddr_str`. -/
def hexDigit (n : Nat) : Char :=
  (("0123456789ABCDEF").data).getD n ('0')

/-- Two-digit uppercase hex rendering of one octet (printf `%02X`). -/
def byteHex (n : Nat) : String :=
  String.mk [hexDigit ((n % 256) / 16), hexDigit (n % 16)]

/-- Predicate `is_null_mac`: every octet zero. -/
def is_null_mac (m : List Nat) : Bool := m.all (fun o => o = 0)

/-- Rendering of a MAC address by the external helper `macaddr_str`
(printf `%02X:%02X:%02X:%02X:%02X:%02X`). -/
def macaddr_str (m : List Nat) : String :=
  String.intercalate (":") (m.map byteHex)

/-- Dotted-quad rendering of a host-order IPv4 address. -/
def ip4_to_str (a : Nat) : String :=
  toString ((a / 16777216) % 256) ++ "." ++ toString ((a / 65536) % 256)
    ++ "." ++ toString ((a / 256) % 256) ++ "." ++ toString (a % 256)

/-- Rendering of an `n2n_ip_subnet_t` by the external helper
`ip_subnet_to_str`: dotted quad, slash, prefix length. -/
def ip_subnet_to_str (s : IpSubnet) : String :=
  ip4_to_str s.net_addr ++ "/" ++ toString s.net_bitlen

/-- The NUL character terminating C strings. -/
def NULc : Char := Char.ofNat 0

/-- Reading a C byte buffer as a string: everything up to the first NUL. -/
def cstr (buf : List Char) : List Char :=
  buf.takeWhile (fun c => c ≠ NULc)

/-- Model of libc `strncpy dst src n`: copies at most `n` characters of
`src`; if `src` is shorter than `n` the remainder of the `n`-byte region
is NUL-padded; bytes of `dst` beyond index `n` are left untouched. -/
def strncpyModel (dst src : List Char) (n : Nat) : List Char :=
  (src.take n ++ List.replicate (n - src.length) NULc) ++ dst.drop n

/-- The id echo of `handle_jsonrpc`: `char idbuf[10]` starts out holding
the uninitialized stack bytes `stack`, then `strncpy(idbuf, json.id,
sizeof(idbuf)-1)` runs, and the result is read back as a C string. -/
def idbuf_echo (id : String) (stack : List Char) : String :=
  String.mk (cstr (strncpyModel stack id.data 9))

/-- Model of libc `strtoul(s, NULL, 0)` for the decimal arguments the
management handlers receive: parses leading decimal digits, 0 if none. -/
def strtoul_go (cs : List Char) (acc : Nat) : Nat :=
  match cs with
  | [] => acc
  | c :: rest => if c.isDigit then strtoul_go rest (acc * 10 + (c.toNat - 48)) else acc

def strtoul_model (s : String) : Nat := strtoul_go s.data 0

/-- Test on the first character of a C string (`*p == c`); an empty
string holds only the terminating NUL, which matches no printable `c`. -/
def first_char_is (s : String) (c : Char) : Bool :=
  match s.data with
  | [] => false
  | d :: _ => d = c

/-- Skipping the first character of a C string (pointer increment). -/
def str_drop1 (s : String) : String := String.mk (s.data.drop 1)

/-- Modelled from the spec: `json_extract_val` of the external connslot
library slices the first value out of the params text (the spec calls
this the "manual string slicing of JSON-RPC params"): the value runs up
to the next comma or closing bracket or brace. -/
def json_extract_val (s : String) : String :=
  String.mk (s.data.takeWhile (fun c => !(c == ',' || c == ']' || c == '\x7d')))

/-- The HACK in the array-building handlers: back up over a final comma
(`if(str[wr_pos-1] == ',') wr_pos--`). -/
def sb_dropComma (s : String) : String :=
  if s.data.getLast? = some ',' then String.mk s.data.dropLast else s

/- ===================== event subsystem ===================== -/

/-- Read of `mgmt_event_subscribers[topic]`. -/
def getSub (eee : RuntimeData) (t : Topic) : Int :=
  match t with
  | Topic.debug => eee.sub_debug
  | Topic.test => eee.sub_test
  | Topic.peer => eee.sub_peer

/-- Write of `mgmt_event_subscribers[topic] = fd`. -/
def setSub (eee : RuntimeData) (t : Topic) (fd : Int) : RuntimeData :=
  match t with
  | Topic.debug => { eee with sub_debug := fd }
  | Topic.test => { eee with sub_test := fd }
  | Topic.peer => { eee with sub_peer := fd }

/-- The topic strings of the `mgmt_events` table. -/
def topicName (t : Topic) : String :=
  match t with
  | Topic.debug => "debug"
  | Topic.test => "test"
  | Topic.peer => "peer"

/-- The description strings of the `mgmt_events` table. -/
def topicDesc (t : Topic) : String :=
  match t with
  | Topic.debug => "All events - for event debugging"
  | Topic.test => "Used only by post.test"
  | Topic.peer => "Changes to peer list"

/-- Typed stand-in for the `void *data1` argument of the event
callbacks: `post.test` passes the raw params C string (possibly NULL),
the peer subsystem passes a `peer_info`. -/
inductive EventData
  | ev_str (s : Option String)
  | ev_peer (p : PeerInfo)
deriving Repr

/-- Rendering of the NULL pointer by glibc printf `%s`. -/
def cstr_or_null (s : Option String) : String :=
  match s with
  | some v => v
  | none => "(null)"

/-- The buffer built by `mgmt_events[topic].func`: `event_debug` writes
nothing (it only logs), `event_test` and `event_peer` write one
RS-prefixed JSON text sequence element. -/
def event_render (topic : Topic) (data0 : Int) (data1 : EventData) : String :=
  match topic with
  | Topic.debug => ""
  | Topic.test =>
    "\x1e\x7b\"event\":\"test\",\"params\":" ++ cstr_or_null (match data1 with
      | EventData.ev_str s => s
      | EventData.ev_peer _ => none) ++ "\x7d\n"
  | Topic.peer =>
    match data1 with
    | EventData.ev_peer p =>
      "\x1e\x7b\"event\":\"peer\",\"action\":" ++ toString data0
        ++ ",\"macaddr\":\"" ++ (if is_null_mac p.mac_addr then "" else macaddr_str p.mac_addr)
        ++ "\",\"sockaddr\":\"" ++ p.sock ++ "\"\x7d\n"
    | EventData.ev_str _ => ""

/-- Embedding of `mgmt_event_post`: if neither the topic nor the debug
topic has a subscriber, nothing happens; otherwise the rendered buffer
is written to the topic subscriber and then to the debug subscriber. -/
def mgmt_event_post (eee : RuntimeData) (topic : Topic) (data0 : Int) (data1 : EventData) : List MgmtAction :=
  let debug := getSub eee Topic.debug
  let sub := getSub eee topic
  if sub = -1 ∧ debug = -1 then []
  else
    let buf := event_render topic data0 data1
    (if sub ≠ -1 then [MgmtAction.writeSock sub buf] else [])
      ++ (if debug ≠ -1 then [MgmtAction.writeSock debug buf] else [])

/-- The upgrade header written to every new event subscriber. -/
def subscribe_msg1 : String :=
  "HTTP/1.1 200 event\r\nContent-Type: application/json\r\n\r\n"

/-- The notice written when a subscription replaced an earlier one. -/
def subscribe_msg2 : String := "\x1e\"replacing\"\n"

/-- Embedding of `event_subscribe`.  The source carries the TODO
"look at url tail for event name" and fixes `topic = N3N_EVENT_DEBUG`,
so the connection's request text is not examined.  If the slot is
already taken, the old socket is closed first (the source's TODO
"send a goodbuy message to old subscriber" is unimplemented); the
HTTP upgrade header and, when replacing, the "replacing" notice are
then written to the new subscriber's socket. -/
def event_subscribe (eee : RuntimeData) (conn : Conn) : RuntimeData × List MgmtAction :=
  let topic : Topic := Topic.debug
  let old := getSub eee topic
  let replacing := old ≠ -1
  let closeActs := if old ≠ -1 then [MgmtAction.closeSock old] else []
  let eee2 := setSub eee topic conn.fd
  let acts := closeActs ++ [MgmtAction.writeSock conn.fd subscribe_msg1]
  let acts2 := if replacing then acts ++ [MgmtAction.writeSock conn.fd subscribe_msg2] else acts
  (eee2, acts2)

/- ===================== JSON-RPC response helpers ===================== -/

/-- Body written by `jsonrpc_result_head`. -/
def jsonrpc_result_head (id : String) : String :=
  "\x7b\"jsonrpc\":\"2.0\",\"id\":\"" ++ id ++ "\",\"result\":"

/-- A complete result response: head, the method's result text, and the
closing brace of `jsonrpc_result_tail`, with the HTTP code passed to
`generate_http_headers` (200 at every call site). -/
def jsonrpc_result_full (id mid : String) (code : Nat) : HttpResponse :=
  { code := code, content_type := "application/json",
    body := jsonrpc_result_head id ++ mid ++ "\x7d" }

/-- Embedding of `jsonrpc_error`: a JSON-RPC error object whose embedded
code doubles as the HTTP status code. -/
def jsonrpc_error (id : String) (code : Nat) (message : String) : HttpResponse :=
  { code := code, content_type := "application/json",
    body := "\x7b\"jsonrpc\":\"2.0\",\"id\":\"" ++ id ++ "\",\"error\":\x7b \"code\":"
      ++ toString code ++ ", \"message\":\"" ++ message ++ "\"\x7d\x7d" }

/-- Embedding of `render_error`: the plain-text 404 fallback page. -/
def render_error : HttpResponse :=
  { code := 404, content_type := "text/plain", body := "api error\n" }

/-- Embedding of `jsonrpc_1uint`. -/
def jsonrpc_1uint (id : String) (result : Nat) : HttpResponse :=
  jsonrpc_result_full id (toString result) 200

/- ===================== JSON-RPC method handlers ===================== -/

/-- Handlers take the (already copied) id buffer, the runtime state and
the params text, and produce the new state, the HTTP response and the
socket side effects. -/
def JsonrpcHandler :=
  String → RuntimeData → Option String → RuntimeData × HttpResponse × List MgmtAction

/-- Build-time constant `VERSION` (defined outside `src/`). -/
def VERSION : String := "VERSION"

/-- Build-time constant `BUILDDATE` (defined outside `src/`). -/
def BUILDDATE : String := "BUILDDATE"

/-- Embedding of `jsonrpc_get_verbose`: returns the logging library's
current trace level. -/
def jsonrpc_get_verbose : JsonrpcHandler :=
  fun id eee _ => (eee, jsonrpc_1uint id eee.traceLevel, [])

/-- Embedding of `jsonrpc_set_verbose` (the FIXME "add auth check" is
unimplemented): missing params or params not starting with a bracket
give a 400 error; otherwise the first value is sliced out of the params,
a leading double quote is skipped, the result is parsed with `strtoul`
and installed as the new trace level, and the reply is that of
`jsonrpc_get_verbose` after the update. -/
def jsonrpc_set_verbose : JsonrpcHandler :=
  fun id eee params_in =>
  match params_in with
  | none => (eee, jsonrpc_error id 400 ("missing param"), [])
  | some p =>
    if !(first_char_is p '[') then
      (eee, jsonrpc_error id 400 ("expecting array"), [])
    else
      let params := str_drop1 p
      let arg1 := json_extract_val params
      let arg1 := if first_char_is arg1 '"' then str_drop1 arg1 else arg1
      let eee2 := { eee with traceLevel := strtoul_model arg1 }
      (eee2, jsonrpc_1uint id eee2.traceLevel, [])

/-- Embedding of `jsonrpc_stop` (the FIXME "add auth check" is
unimplemented): clears `*eee->keep_running` and echoes its new value. -/
def jsonrpc_stop : JsonrpcHandler :=
  fun id eee _ =>
    let eee2 := { eee with keep_running := false }
    (eee2, jsonrpc_1uint id (cBoolNat eee2.keep_running), [])

/-- One row of the `jsonrpc_get_communities` array (a federation
community renders its name as the fixed string, an unassigned auto-IP
subnet renders as the empty string), without the trailing comma. -/
def community_row_core (c : SnCommunity) : String :=
  "\x7b\"community\":\"" ++ (if c.is_federation then "-/-" else c.community)
    ++ "\",\"purgeable\":" ++ cBool c.purgeable
    ++ ",\"is_federation\":" ++ cBool c.is_federation
    ++ ",\"ip4addr\":\""
    ++ (if c.auto_ip_net.net_addr = 0 then "" else ip_subnet_to_str c.auto_ip_net)
    ++ "\"\x7d"

/-- One community row as printed, with its trailing comma. -/
def community_row (c : SnCommunity) : String := community_row_core c ++ ","

/-- Embedding of `jsonrpc_get_communities`.  An empty community table is
the NULL hash head, i.e. the "this is an edge" branch: a 403 when header
encryption is on, otherwise the single configured community name.
Otherwise one row per community with the trailing-comma HACK. -/
def jsonrpc_get_communities : JsonrpcHandler :=
  fun id eee _ =>
  if eee.communities.isEmpty then
    if eee.conf_header_encryption ≠ HeaderEncryption.hdr_none then
      (eee, jsonrpc_error id 403 ("Forbidden"), [])
    else
      (eee, jsonrpc_result_full id
        ("[\x7b\"community\":\"" ++ eee.conf_community_name ++ "\"\x7d]") 200, [])
  else
    (eee, jsonrpc_result_full id
      (sb_dropComma ("[" ++ String.join (eee.communities.map community_row)) ++ "]") 200, [])

/-- Embedding of `jsonrpc_get_edges_row`, with its trailing comma. -/
def jsonrpc_get_edges_row (mode community : String) (p : PeerInfo) : String :=
  "\x7b\"mode\":\"" ++ mode
    ++ "\",\"community\":\"" ++ community
    ++ "\",\"ip4addr\":\""
    ++ (if p.dev_addr.net_addr = 0 then "" else ip_subnet_to_str p.dev_addr)
    ++ "\",\"purgeable\":" ++ cBool p.purgeable
    ++ ",\"local\":" ++ cBool p.is_local
    ++ ",\"macaddr\":\"" ++ (if is_null_mac p.mac_addr then "" else macaddr_str p.mac_addr)
    ++ "\",\"sockaddr\":\"" ++ p.sock
    ++ "\",\"desc\":\"" ++ p.dev_desc
    ++ "\",\"last_p2p\":" ++ toString p.last_p2p
    ++ ",\"last_sent_query\":" ++ toString p.last_sent_query
    ++ ",\"last_seen\":" ++ toString p.last_seen
    ++ "\x7d,"

/-- The row block of `jsonrpc_get_edges`: pending peers ("pSp"), known
peers ("p2p"), then every community's edges ("sn", with a federation
community's name masked). -/
def edges_rows (eee : RuntimeData) : String :=
  String.join (eee.pending_peers.map (jsonrpc_get_edges_row ("pSp") eee.conf_community_name))
    ++ String.join (eee.known_peers.map (jsonrpc_get_edges_row ("p2p") eee.conf_community_name))
    ++ String.join (eee.communities.map (fun c =>
        String.join (c.edges.map (jsonrpc_get_edges_row ("sn")
          (if c.is_federation then "-/-" else c.community)))))

/-- Embedding of `jsonrpc_get_edges`. -/
def jsonrpc_get_edges : JsonrpcHandler :=
  fun id eee _ =>
    (eee, jsonrpc_result_full id (sb_dropComma ("[" ++ edges_rows eee) ++ "]") 200, [])

/-- Embedding of `jsonrpc_get_info`. -/
def jsonrpc_get_info : JsonrpcHandler :=
  fun id eee _ =>
    (eee, jsonrpc_result_full id
      ("\x7b\"version\":\"" ++ VERSION
        ++ "\",\"builddate\":\"" ++ BUILDDATE
        ++ "\",\"is_edge\":" ++ cBool eee.conf_is_edge
        ++ ",\"is_supernode\":" ++ cBool eee.conf_is_supernode
        ++ ",\"macaddr\":\""
        ++ (if is_null_mac eee.device_mac_addr then "" else macaddr_str eee.device_mac_addr)
        ++ "\",\"ip4addr\":\"" ++ ip4_to_str eee.device_ip_addr
        ++ "\",\"sockaddr\":\"" ++ eee.conf_preferred_sock
        ++ "\"\x7d") 200, [])

/-- One row of `jsonrpc_get_supernodes`; `current` is 0 for a peer that
is not `eee->curr_sn`, else 2 while `sn_wait` is set and 1 otherwise. -/
def supernodes_row (current : Nat) (p : PeerInfo) : String :=
  "\x7b\"version\":\"" ++ p.version
    ++ "\",\"purgeable\":" ++ cBool p.purgeable
    ++ ",\"current\":" ++ toString current
    ++ ",\"macaddr\":\"" ++ (if is_null_mac p.mac_addr then "" else macaddr_str p.mac_addr)
    ++ "\",\"sockaddr\":\"" ++ p.sock
    ++ "\",\"selection\":\"" ++ p.selection
    ++ "\",\"last_seen\":" ++ toString p.last_seen
    ++ ",\"uptime\":" ++ toString p.uptime
    ++ "\x7d,"

/-- Embedding of `jsonrpc_get_supernodes`; the pointer comparison with
`eee->curr_sn` becomes an index comparison. -/
def jsonrpc_get_supernodes : JsonrpcHandler :=
  fun id eee _ =>
    let rows := String.join (eee.conf_supernodes.enum.map (fun ip =>
      supernodes_row
        (if eee.curr_sn = some ip.1 then (if eee.sn_wait then 2 else 1) else 0) ip.2))
    (eee, jsonrpc_result_full id (sb_dropComma ("[" ++ rows) ++ "]") 200, [])

/-- Embedding of `jsonrpc_get_timestamps`. -/
def jsonrpc_get_timestamps : JsonrpcHandler :=
  fun id eee _ =>
    (eee, jsonrpc_result_full id
      ("\x7b\"last_register_req\":" ++ toString eee.last_register_req
        ++ ",\"last_rx_p2p\":" ++ toString eee.last_p2p
        ++ ",\"last_rx_super\":" ++ toString eee.last_sup
        ++ ",\"last_sweep\":" ++ toString eee.last_sweep
        ++ ",\"last_sn_fwd\":" ++ toString eee.last_sn_fwd
        ++ ",\"last_sn_reg\":" ++ toString eee.last_sn_reg
        ++ ",\"start_time\":" ++ toString eee.start_time
        ++ "\x7d") 200, [])

/-- The row block of `jsonrpc_get_packetstats`, in source order. -/
def packetstats_rows (eee : RuntimeData) : String :=
  "\x7b\"type\":\"transop\",\"tx_pkt\":" ++ toString eee.transop_tx_cnt
    ++ ",\"rx_pkt\":" ++ toString eee.transop_rx_cnt ++ "\x7d,"
  ++ "\x7b\"type\":\"p2p\",\"tx_pkt\":" ++ toString eee.stats_tx_p2p
    ++ ",\"rx_pkt\":" ++ toString eee.stats_rx_p2p ++ "\x7d,"
  ++ "\x7b\"type\":\"super\",\"tx_pkt\":" ++ toString eee.stats_tx_sup
    ++ ",\"rx_pkt\":" ++ toString eee.stats_rx_sup ++ "\x7d,"
  ++ "\x7b\"type\":\"super_broadcast\",\"tx_pkt\":" ++ toString eee.stats_tx_sup_broadcast
    ++ ",\"rx_pkt\":" ++ toString eee.stats_rx_sup_broadcast ++ "\x7d,"
  ++ "\x7b\"type\":\"tuntap_error\",\"tx_pkt\":" ++ toString eee.stats_tx_tuntap_error
    ++ ",\"rx_pkt\":" ++ toString eee.stats_rx_tuntap_error ++ "\x7d,"
  ++ "\x7b\"type\":\"multicast_drop\",\"tx_pkt\":" ++ toString eee.stats_tx_multicast_drop
    ++ ",\"rx_pkt\":" ++ toString eee.stats_rx_multicast_drop ++ "\x7d,"
  ++ "\x7b\"type\":\"sn_fwd\",\"tx_pkt\":" ++ toString eee.stats_sn_fwd ++ "\x7d,"
  ++ "\x7b\"type\":\"sn_broadcast\",\"tx_pkt\":" ++ toString eee.stats_sn_broadcast ++ "\x7d,"
  ++ "\x7b\"type\":\"sn_reg\",\"tx_pkt\":" ++ toString eee.stats_sn_reg
    ++ ",\"nak\":" ++ toString eee.stats_sn_reg_nak ++ "\x7d,"
  ++ "\x7b\"type\":\"sn_errors\",\"tx_pkt\":" ++ toString eee.stats_sn_errors ++ "\x7d,"

/-- Embedding of `jsonrpc_get_packetstats`. -/
def jsonrpc_get_packetstats : JsonrpcHandler :=
  fun id eee _ =>
    (eee, jsonrpc_result_full id (sb_dropComma ("[" ++ packetstats_rows eee) ++ "]") 200, [])

/-- Embedding of `jsonrpc_post_test`: posts a `test` event carrying the
raw params text, then replies "sent". -/
def jsonrpc_post_test : JsonrpcHandler :=
  fun id eee params =>
    (eee, jsonrpc_result_full id ("\"sent\"\n") 200,
      mgmt_event_post eee Topic.test (-1) (EventData.ev_str params))

/-- Modelled from the spec: `load_allowed_sn_community` (defined outside
`src/`) re-reads the allowed-communities file - plain text, one name per
line, leading `#` comment lines permitted, blank lines ignored - and
returns an integer that the handler echoes. -/
def load_allowed_sn_community (eee : RuntimeData) : RuntimeData × Int :=
  let names := (match eee.community_file with
    | none => []
    | some ls => ls.filter (fun l => l ≠ "" ∧ ¬ (l.data.headD (' ')) = '#'))
  ({ eee with allowed_communities := names }, 0)

/-- Embedding of `jsonrpc_reload_communities` (the FIXME "add auth
check" is unimplemented): unconditionally reloads and echoes the
return value. -/
def jsonrpc_reload_communities : JsonrpcHandler :=
  fun id eee _ =>
    let r := load_allowed_sn_community eee
    (r.1, jsonrpc_result_full id (toString r.2) 200, [])

/-- The (method, description) pairs of the `jsonrpc_methods` table, used
by the `help` method. -/
def jsonrpc_method_descs : List (String × String) :=
  [(("get_communities"), ("Show current communities")),
   (("get_edges"), ("List current edges/peers")),
   (("get_info"), ("Provide basic edge information")),
   (("get_packetstats"), ("traffic counters")),
   (("get_supernodes"), ("List current supernodes")),
   (("get_timestamps"), ("Event timestamps")),
   (("get_verbose"), ("Logging verbosity")),
   (("help"), ("Show JsonRPC methods")),
   (("help.events"), ("Show available event topics")),
   (("post.test"), ("Send a test event")),
   (("reload_communities"), ("Reloads communities and user's public keys")),
   (("set_verbose"), ("Set logging verbosity")),
   (("stop"), ("Stop the daemon"))]

/-- Embedding of `jsonrpc_help`: one row per table entry. -/
def jsonrpc_help : JsonrpcHandler :=
  fun id eee _ =>
    let rows := String.join (jsonrpc_method_descs.map (fun md =>
      "\x7b\"method\":\"" ++ md.1 ++ "\",\"desc\":\"" ++ md.2 ++ "\"\x7d,"))
    (eee, jsonrpc_result_full id (sb_dropComma ("[" ++ rows) ++ "]") 200, [])

/-- One row of `jsonrpc_help_events`: the peer address of the current
subscriber if `getpeername`/`getnameinfo` can provide one, else the
"?" placeholders. -/
def help_events_row (eee : RuntimeData) (t : Topic) : String :=
  let sub := getSub eee t
  let hs : String × String :=
    if sub ≠ -1 then
      match eee.peername sub with
      | some v => v
      | none => (("?"), ("?"))
    else (("?"), ("?"))
  "\x7b\"topic\":\"" ++ topicName t
    ++ "\",\"sockaddr\":\"" ++ hs.1 ++ ":" ++ hs.2
    ++ "\",\"desc\":\"" ++ topicDesc t
    ++ "\"\x7d,"

/-- Embedding of `jsonrpc_help_events`: one row per event topic. -/
def jsonrpc_help_events : JsonrpcHandler :=
  fun id eee _ =>
    let rows := String.join ([Topic.debug, Topic.test, Topic.peer].map (help_events_row eee))
    (eee, jsonrpc_result_full id (sb_dropComma ("[" ++ rows) ++ "]") 200, [])

/- ===================== JSON-RPC dispatch ===================== -/

/-- The `jsonrpc_methods` dispatch table, in source order. -/
def jsonrpc_methods : List (String × JsonrpcHandler) :=
  [(("get_communities"), jsonrpc_get_communities),
   (("get_edges"), jsonrpc_get_edges),
   (("get_info"), jsonrpc_get_info),
   (("get_packetstats"), jsonrpc_get_packetstats),
   (("get_supernodes"), jsonrpc_get_supernodes),
   (("get_timestamps"), jsonrpc_get_timestamps),
   (("get_verbose"), jsonrpc_get_verbose),
   (("help"), jsonrpc_help),
   (("help.events"), jsonrpc_help_events),
   (("post.test"), jsonrpc_post_test),
   (("reload_communities"), jsonrpc_reload_communities),
   (("set_verbose"), jsonrpc_set_verbose),
   (("stop"), jsonrpc_stop)]

/-- The closed method set. -/
def jsonrpc_method_names : List String := jsonrpc_methods.map (fun m => m.1)

/-- The table lookup loop of `handle_jsonrpc` (linear `strcmp` scan). -/
def jsonrpc_method_find (method : String) : Option (String × JsonrpcHandler) :=
  jsonrpc_methods.find? (fun m => m.1 = method)

/-- Embedding of `handle_jsonrpc` from the parsed request on: the id is
copied into the 10-byte stack buffer `idbuf` (whose uninitialized
previous content is `stack`), the method is looked up by linear scan,
an unknown method falls to `render_error`, and otherwise the handler
runs with the copied id. -/
def handle_jsonrpc (eee : RuntimeData) (stack : List Char) (id method : String)
    (params : Option String) : RuntimeData × HttpResponse × List MgmtAction :=
  let idbuf := idbuf_echo id stack
  match jsonrpc_method_find method with
  | none => (eee, render_error, [])
  | some m => m.2 idbuf eee params

/- ===================== HTTP endpoint routing ===================== -/

/-- Content of the built-in asset `management_index.html.h` (an external
asset, not under `src/`). -/
def management_index_html : String := "<html>index</html>"

/-- Content of the built-in asset `management_script.js.h` (an external
asset, not under `src/`). -/
def management_script_js : String := "// script"

/-- Embedding of `render_index_page`. -/
def render_index_page : HttpResponse :=
  { code := 200, content_type := "text/html", body := management_index_html }

/-- Embedding of `render_script_page`. -/
def render_script_page : HttpResponse :=
  { code := 200, content_type := "text/javascript", body := management_script_js }

/-- Embedding of `render_todo_page` (the reserved endpoints). -/
def render_todo_page : HttpResponse :=
  { code := 501, content_type := "text/plain", body := "TODO\n" }

/-- The prefix test of `mgmt_api_handler`:
`strncmp(match, request, strlen(match)) == 0`. -/
def request_matches (m request : String) : Bool :=
  m.data.isPrefixOf request.data

/-- Outcome of `mgmt_api_handler`: which endpoint of the `api_endpoints`
table fired and its full effect.  A `POST /v1` request hands the raw
request text to `handle_jsonrpc`, whose body extraction and JSON parsing
are done by the external connslot library; that path is modelled from
the parsed request by `handle_jsonrpc` above. -/
inductive ApiOutcome
  | api_error
  | jsonrpc_request (request : String)
  | page (resp : HttpResponse)
  | subscribed (eee : RuntimeData) (acts : List MgmtAction)

/-- Embedding of `mgmt_api_handler`: first matching prefix of the
`api_endpoints` table wins, no match falls to `render_error`. -/
def mgmt_api_handler (eee : RuntimeData) (conn : Conn) : ApiOutcome :=
  if request_matches ("POST /v1 ") conn.request then
    ApiOutcome.jsonrpc_request conn.request
  else if request_matches ("GET / ") conn.request then
    ApiOutcome.page render_index_page
  else if request_matches ("GET /help ") conn.request then
    ApiOutcome.page render_todo_page
  else if request_matches ("GET /metrics ") conn.request then
    ApiOutcome.page render_todo_page
  else if request_matches ("GET /script.js ") conn.request then
    ApiOutcome.page render_script_page
  else if request_matches ("GET /status ") conn.request then
    ApiOutcome.page render_todo_page
  else if request_matches ("GET /events/") conn.request then
    let r := event_subscribe eee conn
    ApiOutcome.subscribed r.1 r.2
  else
    ApiOutcome.api_error

/- ===================== supernode.c: CLI and signals ===================== -/

/-- INADDR_NONE, also the value of `(in_addr_t)(-1)`. -/
def INADDR_NONE : Nat := 0xFFFFFFFF

/-- INADDR_ANY. -/
def INADDR_ANY : Nat := 0

/-- Modelled from the spec: `bitlen2mask` (defined outside `src/`) is
the netmask with `bitlen` leading one bits in 32-bit space
(clipped at 32). -/
def bitlen2mask (bitlen : Nat) : Nat :=
  if bitlen ≥ 32 then 0xFFFFFFFF else 0xFFFFFFFF - (2 ^ (32 - bitlen) - 1)

/-- The validation of the `-a <min>-<max>/<bits>` CLI option in
`loadFromCLI`, after `sscanf` and `inet_addr` have produced the two
host-order endpoint addresses and the prefix length (8-bit `%hhu`).
The range checks run first (each endpoint must be a real address, not
zero, not broadcast, `min ≤ max`, both aligned to the prefix), then the
prefix bound `1 ≤ bits ≤ 30`; failure leaves the runtime defaults. -/
def parse_autoip_range (net_min net_max bitlen : Nat) : Option (IpSubnet × IpSubnet) :=
  let mask := bitlen2mask bitlen
  if net_min = INADDR_NONE ∨ net_min = INADDR_ANY
      ∨ net_max = INADDR_NONE ∨ net_max = INADDR_ANY
      ∨ net_min > net_max
      ∨ Nat.land net_min (0xFFFFFFFF - mask) ≠ 0
      ∨ Nat.land net_max (0xFFFFFFFF - mask) ≠ 0 then
    none
  else if bitlen > 30 ∨ bitlen = 0 then
    none
  else
    some ({ net_addr := net_min, net_bitlen := bitlen },
          { net_addr := net_max, net_bitlen := bitlen })

/-- The state effect of the `-a` option: on success the runtime's
min/max auto-IP pool endpoints are set, on rejection they are left. -/
def loadFromCLI_a (eee : RuntimeData) (net_min net_max bitlen : Nat) : RuntimeData :=
  match parse_autoip_range net_min net_max bitlen with
  | none => eee
  | some r => { eee with min_auto_ip_net := r.1, max_auto_ip_net := r.2 }

/-- Host-order IPv4 address from a dotted quad. -/
def ipOfQuad (a b c d : Nat) : Nat := ((a * 256 + b) * 256 + c) * 256 + d

/-- The `-m <mac>` option handler in `loadFromCLI`: after `str2mac`
parses the six octets, octet 0 gets its multicast bit cleared
(`&= ~0x01`) and its locally-assigned bit set (`|= 0x02`). -/
def loadFromCLI_m (mac : List Nat) : List Nat :=
  match mac with
  | [] => []
  | b :: rest => ((b &&& 0xFE) ||| 0x02) :: rest

/-- State of the SIGINT/SIGTERM handler: the static `called` flag and
the global `keep_running`. -/
structure TermState where
  called : Bool
  keep_running : Bool
deriving Repr, DecidableEq

/-- Result of one `term_handler` invocation: either the process exits
immediately (`_exit(0)`) or the handler returns with a new state. -/
inductive TermResult
  | exited
  | returned (s : TermState)
deriving Repr, DecidableEq

/-- Embedding of `term_handler`: a second invocation exits immediately;
the first invocation records itself and clears `keep_running`. -/
def term_handler (s : TermState) : TermResult :=
  if s.called then TermResult.exited
  else TermResult.returned { called := true, keep_running := false }

/- ===================== a concrete base state ===================== -/

/-- A concrete runtime state for evaluating the theorems: no peers, no
communities, no event subscribers, default auto-IP pool, all counters
zero. -/
def base_state : RuntimeData :=
  { keep_running := true
    traceLevel := 0
    communities := []
    pending_peers := []
    known_peers := []
    conf_community_name := "n3n"
    conf_header_encryption := HeaderEncryption.hdr_none
    conf_is_edge := false
    conf_is_supernode := true
    conf_supernodes := []
    conf_preferred_sock := ""
    device_mac_addr := [0, 0, 0, 0, 0, 0]
    device_ip_addr := 0
    curr_sn := none
    sn_wait := false
    last_register_req := 0
    last_p2p := 0
    last_sup := 0
    last_sweep := 0
    last_sn_fwd := 0
    last_sn_reg := 0
    start_time := 0
    transop_tx_cnt := 0
    transop_rx_cnt := 0
    stats_tx_p2p := 0
    stats_rx_p2p := 0
    stats_tx_sup := 0
    stats_rx_sup := 0
    stats_tx_sup_broadcast := 0
    stats_rx_sup_broadcast := 0
    stats_tx_tuntap_error := 0
    stats_rx_tuntap_error := 0
    stats_tx_multicast_drop := 0
    stats_rx_multicast_drop := 0
    stats_sn_fwd := 0
    stats_sn_broadcast := 0
    stats_sn_reg := 0
    stats_sn_reg_nak := 0
    stats_sn_errors := 0
    community_file := none
    allowed_communities := []
    min_auto_ip_net := { net_addr := ipOfQuad 10 128 255 0, net_bitlen := 24 }
    max_auto_ip_net := { net_addr := ipOfQuad 10 255 255 0, net_bitlen := 24 }
    sub_debug := -1
    sub_test := -1
    sub_peer := -1
    peername := fun _ => none }

/- ===================== helper lemmas ===================== -/

theorem sb_dropComma_concat (a : String) : sb_dropComma (a ++ (",")) = a := by
  have h : (a ++ (",")).data = a.data ++ [','] := String.data_append a (",")
  unfold sb_dropComma
  rw [h, List.getLast?_concat]
  rw [if_pos rfl, List.dropLast_concat]

theorem cstr_append_nul (l rest : List Char) (h : NULc ∉ l) :
    cstr (l ++ NULc :: rest) = l := by
  induction l with
  | nil => simp [cstr]
  | cons c cs ih =>
    have hc : c ≠ NULc := fun he => h (he ▸ List.mem_cons_self c cs)
    have hcs : NULc ∉ cs := fun hm => h (List.mem_cons_of_mem c hm)
    have ih2 := ih hcs
    simp only [cstr, List.cons_append, List.takeWhile_cons] at *
    simp only [decide_not] at ih2 ⊢
    simp [hc, ih2]

theorem idbuf_echo_short (id : String) (stack : List Char)
    (hlen : id.length ≤ 8) (hnul : NULc ∉ id.data) : idbuf_echo id stack = id := by
  unfold idbuf_echo strncpyModel
  have hl : id.data.length ≤ 8 := hlen
  have htake : id.data.take 9 = id.data := List.take_of_length_le (by omega)
  have hrep : 9 - id.data.length = (8 - id.data.length) + 1 := by omega
  rw [htake, hrep, List.replicate_succ]
  rw [List.append_assoc]
  rw [show (NULc :: List.replicate (8 - id.data.length) NULc) ++ stack.drop 9
        = NULc :: (List.replicate (8 - id.data.length) NULc ++ stack.drop 9) from rfl]
  rw [cstr_append_nul _ _ hnul]

/- ===================== claim theorems ===================== -/

/-- C7: the SIGINT/SIGTERM handler as a step function on the pair
(called flag, keep_running): the first invocation clears `keep_running`,
records that it was called and returns so the loop can shut down
cooperatively; a second invocation exits the process immediately. -/
theorem term_handler_two_phase :
    ∀ kr kr2 : Bool,
      term_handler { called := false, keep_running := kr }
        = TermResult.returned { called := true, keep_running := false }
      ∧ term_handler { called := true, keep_running := kr2 } = TermResult.exited := by
  intro kr kr2
  exact ⟨rfl, rfl⟩

/-- C8: whatever six octets the `-m <mac>` argument parses to, the
option handler forces octet 0 to be locally administered: bit 1 set
(`|= 0x02`) and bit 0 (the multicast bit) clear (`&= ~0x01`). -/
theorem supernode_mac_locally_administered :
    ∀ (b : Nat) (rest : List Nat),
      Nat.testBit ((loadFromCLI_m (b :: rest)).headD 0) 1 = true
      ∧ Nat.testBit ((loadFromCLI_m (b :: rest)).headD 0) 0 = false := by
  intro b rest
  constructor
  · show ((b &&& 0xFE) ||| 0x02).testBit 1 = true
    rw [Nat.testBit_lor]
    have h : Nat.testBit 2 1 = true := by decide
    simp [h]
  · show ((b &&& 0xFE) ||| 0x02).testBit 0 = false
    rw [Nat.testBit_lor, Nat.testBit_land]
    have h1 : Nat.testBit 254 0 = false := by decide
    have h2 : Nat.testBit 2 0 = false := by decide
    simp [h1, h2]

/-- C5: validation of the CLI option `-a <min>-<max>/<bits>`:
`10.0.0.0-10.0.0.0/30` is accepted (min may equal max) and installs the
pool endpoints; `10.0.0.0-10.0.0.0/31` is rejected (bits must satisfy
1 <= bits <= 30); and a range is rejected whenever min > max, whenever
an endpoint is not aligned to the prefix, and whenever an endpoint is
the zero or the broadcast address. -/
theorem autoip_option_constraints :
    (parse_autoip_range (ipOfQuad 10 0 0 0) (ipOfQuad 10 0 0 0) 30
      = some ({ net_addr := ipOfQuad 10 0 0 0, net_bitlen := 30 },
              { net_addr := ipOfQuad 10 0 0 0, net_bitlen := 30 }))
    ∧ (∀ eee, loadFromCLI_a eee (ipOfQuad 10 0 0 0) (ipOfQuad 10 0 0 0) 30
        = { eee with
            min_auto_ip_net := { net_addr := ipOfQuad 10 0 0 0, net_bitlen := 30 },
            max_auto_ip_net := { net_addr := ipOfQuad 10 0 0 0, net_bitlen := 30 } })
    ∧ parse_autoip_range (ipOfQuad 10 0 0 0) (ipOfQuad 10 0 0 0) 31 = none
    ∧ (∀ mn mx b, mn > mx → parse_autoip_range mn mx b = none)
    ∧ (∀ mn mx b, (Nat.land mn (0xFFFFFFFF - bitlen2mask b) ≠ 0
          ∨ Nat.land mx (0xFFFFFFFF - bitlen2mask b) ≠ 0)
        → parse_autoip_range mn mx b = none)
    ∧ (∀ mn mx b, (mn = INADDR_ANY ∨ mn = INADDR_NONE ∨ mx = INADDR_ANY ∨ mx = INADDR_NONE)
        → parse_autoip_range mn mx b = none) := by
  refine ⟨by decide, ?_, by decide, ?_, ?_, ?_⟩
  · intro eee
    unfold loadFromCLI_a
    rw [show parse_autoip_range (ipOfQuad 10 0 0 0) (ipOfQuad 10 0 0 0) 30
      = some ({ net_addr := ipOfQuad 10 0 0 0, net_bitlen := 30 },
              { net_addr := ipOfQuad 10 0 0 0, net_bitlen := 30 }) from by decide]
  · intro mn mx b h
    unfold parse_autoip_range
    rw [if_pos (Or.inr (Or.inr (Or.inr (Or.inr (Or.inl h)))))]
  · intro mn mx b h
    unfold parse_autoip_range
    rcases h with h | h
    · rw [if_pos (Or.inr (Or.inr (Or.inr (Or.inr (Or.inr (Or.inl h))))))]
    · rw [if_pos (Or.inr (Or.inr (Or.inr (Or.inr (Or.inr (Or.inr h))))))]
  · intro mn mx b h
    unfold parse_autoip_range
    rcases h with h | h | h | h
    · rw [if_pos (Or.inr (Or.inl h))]
    · rw [if_pos (Or.inl h)]
    · rw [if_pos (Or.inr (Or.inr (Or.inr (Or.inl h))))]
    · rw [if_pos (Or.inr (Or.inr (Or.inl h)))]

/-- C5 witness: concrete rejections exercising each hypothesis of
`autoip_option_constraints`: min > max, a misaligned min endpoint, a
misaligned max endpoint, and a zero endpoint. -/
theorem autoip_option_constraints_witness :
    parse_autoip_range 5 3 24 = none
    ∧ parse_autoip_range (ipOfQuad 10 0 0 1) (ipOfQuad 10 0 0 1) 30 = none
    ∧ parse_autoip_range (ipOfQuad 10 0 0 0) (ipOfQuad 10 0 0 2) 30 = none
    ∧ parse_autoip_range 0 (ipOfQuad 10 0 0 0) 24 = none
    ∧ loadFromCLI_a base_state (ipOfQuad 10 0 0 0) (ipOfQuad 10 0 0 0) 30
      = { base_state with
          min_auto_ip_net := { net_addr := ipOfQuad 10 0 0 0, net_bitlen := 30 },
          max_auto_ip_net := { net_addr := ipOfQuad 10 0 0 0, net_bitlen := 30 } } :=
  ⟨autoip_option_constraints.2.2.2.1 5 3 24 (by decide),
   autoip_option_constraints.2.2.2.2.1 (ipOfQuad 10 0 0 1) (ipOfQuad 10 0 0 1) 30
     (Or.inl (by decide)),
   autoip_option_constraints.2.2.2.2.1 (ipOfQuad 10 0 0 0) (ipOfQuad 10 0 0 2) 30
     (Or.inr (by decide)),
   autoip_option_constraints.2.2.2.2.2 0 (ipOfQuad 10 0 0 0) 24 (Or.inl rfl),
   autoip_option_constraints.2.1 base_state⟩

/-- C1 counterexample: with the debug slot held by socket 5, a new
subscription on socket 7 closes socket 5 as its very first action and
writes the RS-"replacing" notice to the NEW socket 7; no write ever
targets the old subscriber 5, refuting "the old subscriber is politely
notified (sent a replacing message) before being dropped". -/
theorem event_subscribe_replacing_notice_cex :
    (event_subscribe { base_state with sub_debug := 5 }
        { fd := 7, request := "GET /events/debug HTTP/1.1\r\n\r\n" }).2
      = [MgmtAction.closeSock 5,
         MgmtAction.writeSock 7 subscribe_msg1,
         MgmtAction.writeSock 7 subscribe_msg2]
    ∧ ((event_subscribe { base_state with sub_debug := 5 }
        { fd := 7, request := "GET /events/debug HTTP/1.1\r\n\r\n" }).2.all
        (fun a => match a with
          | MgmtAction.writeSock fd _ => fd == 7
          | MgmtAction.closeSock _ => true)) = true :=
  ⟨rfl, rfl⟩

/-- C1 amended: at most one subscriber socket is held per topic slot;
when the (debug) slot is occupied, a new subscription installs the new
connection's socket in the slot, closes the old socket WITHOUT sending
it anything, and writes the upgrade header and the "replacing" notice
to the new subscriber's socket. -/
theorem event_subscribe_replaces_and_closes_old :
    ∀ (eee : RuntimeData) (conn : Conn), eee.sub_debug ≠ -1 →
      (event_subscribe eee conn).1.sub_debug = conn.fd
      ∧ (event_subscribe eee conn).1.sub_test = eee.sub_test
      ∧ (event_subscribe eee conn).1.sub_peer = eee.sub_peer
      ∧ (event_subscribe eee conn).2
        = [MgmtAction.closeSock eee.sub_debug,
           MgmtAction.writeSock conn.fd subscribe_msg1,
           MgmtAction.writeSock conn.fd subscribe_msg2] := by
  intro eee conn h
  unfold event_subscribe getSub setSub
  simp [h]

/-- C1 witness: a concrete replacement, evaluated. -/
theorem event_subscribe_replaces_and_closes_old_witness :
    (({ base_state with sub_debug := 6 } : RuntimeData).sub_debug ≠ -1)
    ∧ (event_subscribe { base_state with sub_debug := 6 }
        { fd := 9, request := "GET /events/test HTTP/1.1\r\n\r\n" }).1.sub_debug = 9
    ∧ (event_subscribe { base_state with sub_debug := 6 }
        { fd := 9, request := "GET /events/test HTTP/1.1\r\n\r\n" }).2
      = [MgmtAction.closeSock 6,
         MgmtAction.writeSock 9 subscribe_msg1,
         MgmtAction.writeSock 9 subscribe_msg2] := by
  have h : (({ base_state with sub_debug := 6 } : RuntimeData).sub_debug ≠ -1) := by decide
  have hall := event_subscribe_replaces_and_closes_old
    { base_state with sub_debug := 6 }
    { fd := 9, request := "GET /events/test HTTP/1.1\r\n\r\n" } h
  exact ⟨h, hall.1, hall.2.2.2⟩

/-- C2 counterexample: a request for `GET /events/peer` is routed to
`event_subscribe`, which stores the connection's socket 7 in the DEBUG
slot (the source TODO "look at url tail for event name" is
unimplemented); the peer slot stays empty, refuting "the connection
becomes the current subscriber of exactly the topic named in the URL
tail". -/
theorem event_subscribe_topic_cex :
    mgmt_api_handler base_state { fd := 7, request := "GET /events/peer HTTP/1.1\r\n\r\n" }
      = ApiOutcome.subscribed { base_state with sub_debug := 7 }
          [MgmtAction.writeSock 7 subscribe_msg1]
    ∧ ({ base_state with sub_debug := 7 } : RuntimeData).sub_peer = -1
    ∧ ({ base_state with sub_debug := 7 } : RuntimeData).sub_debug = 7 :=
  ⟨rfl, rfl, rfl⟩

/-- C2 amended: every management request whose line starts with
`GET /events/` is dispatched to `event_subscribe`, and the connection
becomes the DEBUG topic's subscriber regardless of the topic named in
the URL tail; the test and peer slots are unchanged. -/
theorem event_subscribe_always_debug :
    ∀ (eee : RuntimeData) (fd : Int) (tail : String),
      mgmt_api_handler eee { fd := fd, request := "GET /events/" ++ tail }
        = ApiOutcome.subscribed
            (event_subscribe eee { fd := fd, request := "GET /events/" ++ tail }).1
            (event_subscribe eee { fd := fd, request := "GET /events/" ++ tail }).2
      ∧ (event_subscribe eee { fd := fd, request := "GET /events/" ++ tail }).1.sub_debug = fd
      ∧ (event_subscribe eee { fd := fd, request := "GET /events/" ++ tail }).1.sub_test
          = eee.sub_test
      ∧ (event_subscribe eee { fd := fd, request := "GET /events/" ++ tail }).1.sub_peer
          = eee.sub_peer := by
  intro eee fd tail
  have h1 : request_matches ("POST /v1 ") ("GET /events/" ++ tail) = false := by
    unfold request_matches
    rw [String.data_append]
    rfl
  have h2 : request_matches ("GET / ") ("GET /events/" ++ tail) = false := by
    unfold request_matches
    rw [String.data_append]
    rfl
  have h3 : request_matches ("GET /help ") ("GET /events/" ++ tail) = false := by
    unfold request_matches
    rw [String.data_append]
    rfl
  have h4 : request_matches ("GET /metrics ") ("GET /events/" ++ tail) = false := by
    unfold request_matches
    rw [String.data_append]
    rfl
  have h5 : request_matches ("GET /script.js ") ("GET /events/" ++ tail) = false := by
    unfold request_matches
    rw [String.data_append]
    rfl
  have h6 : request_matches ("GET /status ") ("GET /events/" ++ tail) = false := by
    unfold request_matches
    rw [String.data_append]
    rfl
  have h7 : request_matches ("GET /events/") ("GET /events/" ++ tail) = true := by
    unfold request_matches
    rw [String.data_append]
    exact List.isPrefixOf_iff_prefix.mpr (List.prefix_append _ _)
  refine ⟨?_, rfl, rfl, rfl⟩
  simp [mgmt_api_handler, h1, h2, h3, h4, h5, h6, h7]

/-- C3 counterexample: concrete unauthenticated requests (the dispatcher
has no authentication input at all; `mgmt_auth` is compiled out and each
mutating handler carries the FIXME "add auth check"): `stop` clears
`keep_running` and gets a 200 result, `set_verbose` changes the trace
level and gets a 200 result, `reload_communities` reloads the allowed
communities and gets a 200 result - refuting "an unauthenticated request
does not change verbosity, reload the community file, or clear
keep_running, and receives an error instead". -/
theorem mutating_methods_unauthenticated_cex :
    ((handle_jsonrpc base_state (List.replicate 10 NULc) ("1") ("stop") none).1.keep_running
        = false
      ∧ base_state.keep_running = true
      ∧ (handle_jsonrpc base_state (List.replicate 10 NULc) ("1") ("stop") none).2.1.code = 200)
    ∧ ((handle_jsonrpc base_state (List.replicate 10 NULc) ("1") ("set_verbose")
          (some ("[4]"))).1.traceLevel = 4
      ∧ base_state.traceLevel = 0
      ∧ (handle_jsonrpc base_state (List.replicate 10 NULc) ("1") ("set_verbose")
          (some ("[4]"))).2.1.code = 200)
    ∧ ((handle_jsonrpc { base_state with community_file := some [("acme")] }
          (List.replicate 10 NULc) ("1") ("reload_communities") none).1.allowed_communities
        = [("acme")]
      ∧ (handle_jsonrpc { base_state with community_file := some [("acme")] }
          (List.replicate 10 NULc) ("1") ("reload_communities") none).2.1.code = 200) := by
  refine ⟨⟨rfl, rfl, rfl⟩, ⟨rfl, rfl, rfl⟩, ⟨?_, rfl⟩⟩
  simp [handle_jsonrpc, jsonrpc_method_find, jsonrpc_methods, jsonrpc_reload_communities,
    load_allowed_sn_community]

/-- C3 amended: the mutating methods `set_verbose`, `reload_communities`
and `stop` execute for EVERY caller and reply with a 200 result: the
code has no authentication check on their path (the hook `mgmt_auth` is
compiled out), so an unauthenticated caller can clear `keep_running`,
change the verbosity and reload the community file. -/
theorem mutating_methods_execute_without_auth :
    ∀ (eee : RuntimeData) (stack : List Char) (id : String) (params : Option String),
      ((handle_jsonrpc eee stack id ("stop") params).1.keep_running = false
        ∧ (handle_jsonrpc eee stack id ("stop") params).2.1.code = 200)
      ∧ ((handle_jsonrpc eee stack id ("set_verbose") (some ("[4]"))).1.traceLevel = 4
        ∧ (handle_jsonrpc eee stack id ("set_verbose") (some ("[4]"))).2.1.code = 200)
      ∧ ((handle_jsonrpc eee stack id ("reload_communities") params).1.allowed_communities
          = (load_allowed_sn_community eee).1.allowed_communities
        ∧ (handle_jsonrpc eee stack id ("reload_communities") params).2.1.code = 200) := by
  intro eee stack id params
  exact ⟨⟨rfl, rfl⟩, ⟨rfl, rfl⟩, ⟨rfl, rfl⟩⟩

/-- C10: the id echo is NOT always the first at-most-9 characters of the
request id.  `handle_jsonrpc` declares `char idbuf[10]` and runs
`strncpy(idbuf, json.id, sizeof(idbuf)-1)`; for an id of length 9 or
more, strncpy copies 9 bytes and never writes a terminator, so the
echoed id picks up whatever uninitialized stack bytes follow.  With a 9
character id "123456789" and residual stack byte X, the echo is
"123456789X", and the (known-method) reply embeds that corrupted id. -/
theorem jsonrpc_id_truncation_bug :
    idbuf_echo ("123456789") (List.replicate 10 ('X')) = "123456789X"
    ∧ idbuf_echo ("123456789") (List.replicate 10 ('X')) ≠ "123456789"
    ∧ (handle_jsonrpc base_state (List.replicate 10 ('X')) ("123456789") ("get_verbose")
        none).2.1.body
      = "\x7b\"jsonrpc\":\"2.0\",\"id\":\"123456789X\",\"result\":0\x7d" := by
  refine ⟨by decide, by decide, by decide⟩

/-- Edge A of the end-to-end scenarios (MAC 02:AA:00:00:00:01,
registered from 203.0.113.5:1234 at now=1000). -/
def peerA : PeerInfo :=
  { mac_addr := [2, 170, 0, 0, 0, 1], sock := "203.0.113.5:1234",
    dev_addr := { net_addr := 0, net_bitlen := 0 }, purgeable := true,
    is_local := false, dev_desc := "", last_p2p := 0, last_sent_query := 0,
    last_seen := 1000, version := "", uptime := 0, selection := "" }

/-- Edge B of the end-to-end scenarios (MAC 02:BB:00:00:00:02). -/
def peerB : PeerInfo :=
  { mac_addr := [2, 187, 0, 0, 0, 2], sock := "203.0.113.6:2345",
    dev_addr := { net_addr := 0, net_bitlen := 0 }, purgeable := true,
    is_local := false, dev_desc := "", last_p2p := 0, last_sent_query := 0,
    last_seen := 1005, version := "", uptime := 0, selection := "" }

/-- Modelled from the spec: the runtime state reached after end-to-end
scenario 3 - the dynamically created (hence purgeable, non-federation)
community `acme` exists with the auto-IP subnet `net` that was assigned
at creation and with edges A and B registered; per the spec's scenario 6
the supernode's community table holds exactly this community's entry
(the result array has exactly one entry). -/
def scenario3_state (net : IpSubnet) (edges : List PeerInfo) : RuntimeData :=
  { base_state with communities :=
      [{ community := "acme", is_federation := false, purgeable := true,
         auto_ip_net := net, edges := edges }] }

/-- C4: in the state after scenario 3, `get_communities` replies with
HTTP 200 and a result array with exactly one entry, whose `community`
field is "acme" and whose `ip4addr` field is the rendering of the
auto-IP subnet assigned to `acme`. -/
theorem get_communities_scenario3 :
    ∀ (net : IpSubnet) (edges : List PeerInfo), net.net_addr ≠ 0 →
      (jsonrpc_get_communities ("1") (scenario3_state net edges) none).2.1.code = 200
      ∧ (jsonrpc_get_communities ("1") (scenario3_state net edges) none).2.1.body
        = jsonrpc_result_head ("1")
          ++ (("[" ++ ("\x7b\"community\":\"" ++ "acme" ++ "\",\"purgeable\":" ++ "1"
              ++ ",\"is_federation\":" ++ "0" ++ ",\"ip4addr\":\""
              ++ ip_subnet_to_str net ++ "\"\x7d")) ++ "]")
          ++ "\x7d" := by
  intro net edges h
  refine ⟨rfl, ?_⟩
  have e1 : (jsonrpc_get_communities ("1") (scenario3_state net edges) none).2.1
      = jsonrpc_result_full ("1")
          (sb_dropComma ("[" ++ community_row
            { community := "acme", is_federation := false, purgeable := true,
              auto_ip_net := net, edges := edges }) ++ "]") 200 := rfl
  rw [e1, community_row, ← String.append_assoc, sb_dropComma_concat]
  simp [jsonrpc_result_full, community_row_core, cBool, h]

/-- C4 witness: scenario 3 with the concrete subnet 10.128.255.0/24 and
edges A and B, evaluated to the literal reply. -/
theorem get_communities_scenario3_witness :
    (({ net_addr := ipOfQuad 10 128 255 0, net_bitlen := 24 } : IpSubnet).net_addr ≠ 0)
    ∧ (jsonrpc_get_communities ("1")
        (scenario3_state { net_addr := ipOfQuad 10 128 255 0, net_bitlen := 24 }
          [peerA, peerB]) none).2.1.code = 200
    ∧ (jsonrpc_get_communities ("1")
        (scenario3_state { net_addr := ipOfQuad 10 128 255 0, net_bitlen := 24 }
          [peerA, peerB]) none).2.1.body
      = "\x7b\"jsonrpc\":\"2.0\",\"id\":\"1\",\"result\":[\x7b\"community\":\"acme\",\"purgeable\":1,\"is_federation\":0,\"ip4addr\":\"10.128.255.0/24\"\x7d]\x7d" := by
  have h : (({ net_addr := ipOfQuad 10 128 255 0, net_bitlen := 24 } : IpSubnet).net_addr ≠ 0) := by
    decide
  have hall := get_communities_scenario3
    { net_addr := ipOfQuad 10 128 255 0, net_bitlen := 24 } [peerA, peerB] h
  refine ⟨h, hall.1, ?_⟩
  rw [hall.2]
  decide

/-- Two community entries that may differ only in the name of a
federation community: all fields agree, except that the `community`
string is only required to agree when the entry is not a federation
community. -/
def community_fed_name_rel (c₁ c₂ : SnCommunity) : Prop :=
  c₁.is_federation = c₂.is_federation ∧ c₁.purgeable = c₂.purgeable
    ∧ c₁.auto_ip_net = c₂.auto_ip_net ∧ c₁.edges = c₂.edges
    ∧ (c₁.is_federation = false → c₁.community = c₂.community)

theorem community_row_fed_eq {c₁ c₂ : SnCommunity}
    (h : community_fed_name_rel c₁ c₂) : community_row c₂ = community_row c₁ := by
  obtain ⟨hf, hp, ha, _, hn⟩ := h
  unfold community_row community_row_core
  rw [← hf, ← hp, ← ha]
  cases hfed : c₁.is_federation with
  | true => rfl
  | false => rw [hn hfed]

theorem community_rows_fed_eq {cs₁ cs₂ : List SnCommunity}
    (h : List.Forall₂ community_fed_name_rel cs₁ cs₂) :
    cs₂.map community_row = cs₁.map community_row := by
  induction h with
  | nil => rfl
  | cons hr _ ih => simp [List.map_cons, community_row_fed_eq hr, ih]

theorem edges_block_fed_eq {c₁ c₂ : SnCommunity}
    (h : community_fed_name_rel c₁ c₂) :
    String.join (c₂.edges.map (jsonrpc_get_edges_row ("sn")
        (if c₂.is_federation then "-/-" else c₂.community)))
      = String.join (c₁.edges.map (jsonrpc_get_edges_row ("sn")
        (if c₁.is_federation then "-/-" else c₁.community))) := by
  obtain ⟨hf, _, _, he, hn⟩ := h
  rw [← hf, ← he]
  cases hfed : c₁.is_federation with
  | true => rfl
  | false => rw [hn hfed]

theorem edges_blocks_fed_eq {cs₁ cs₂ : List SnCommunity}
    (h : List.Forall₂ community_fed_name_rel cs₁ cs₂) :
    cs₂.map (fun c => String.join (c.edges.map (jsonrpc_get_edges_row ("sn")
        (if c.is_federation then "-/-" else c.community))))
      = cs₁.map (fun c => String.join (c.edges.map (jsonrpc_get_edges_row ("sn")
        (if c.is_federation then "-/-" else c.community)))) := by
  induction h with
  | nil => rfl
  | cons hr _ ih =>
    simp only [List.map_cons, ih]
    rw [edges_block_fed_eq hr]

/-- C9: two runtime states that differ only in the name(s) of the
federation community produce identical `get_communities` and
`get_edges` responses - a federation community always renders its
`community` field as the fixed dash-slash-dash placeholder, so the
configured federation name never appears in the management output. -/
theorem fed_name_noninterference :
    ∀ (eee : RuntimeData) (cs₁ cs₂ : List SnCommunity) (id : String) (params : Option String),
      List.Forall₂ community_fed_name_rel cs₁ cs₂ →
      (jsonrpc_get_communities id { eee with communities := cs₂ } params).2.1
        = (jsonrpc_get_communities id { eee with communities := cs₁ } params).2.1
      ∧ (jsonrpc_get_edges id { eee with communities := cs₂ } params).2.1
        = (jsonrpc_get_edges id { eee with communities := cs₁ } params).2.1 := by
  intro eee cs₁ cs₂ id params h
  constructor
  · cases h with
    | nil => rfl
    | cons hr ht =>
      show (jsonrpc_result_full id (sb_dropComma ("[" ++ String.join
          ((_ :: _).map community_row)) ++ "]") 200)
        = jsonrpc_result_full id (sb_dropComma ("[" ++ String.join
          ((_ :: _).map community_row)) ++ "]") 200
      rw [community_rows_fed_eq (List.Forall₂.cons hr ht)]
  · show (jsonrpc_result_full id (sb_dropComma ("[" ++ edges_rows _) ++ "]") 200)
      = jsonrpc_result_full id (sb_dropComma ("[" ++ edges_rows _) ++ "]") 200
    unfold edges_rows
    rw [show ({ eee with communities := cs₂ } : RuntimeData).communities = cs₂ from rfl]
    rw [show ({ eee with communities := cs₁ } : RuntimeData).communities = cs₁ from rfl]
    rw [edges_blocks_fed_eq h]

/-- The federation community named `*fedA`. -/
def fedA : SnCommunity :=
  { community := "*fedA", is_federation := true, purgeable := false,
    auto_ip_net := { net_addr := 0, net_bitlen := 0 }, edges := [peerA] }

/-- The same federation community, renamed `*fedB`. -/
def fedB : SnCommunity :=
  { community := "*fedB", is_federation := true, purgeable := false,
    auto_ip_net := { net_addr := 0, net_bitlen := 0 }, edges := [peerA] }

/-- A non-federation community used alongside the federation in the C9
witness. -/
def acmeCommunity : SnCommunity :=
  { community := "acme", is_federation := false, purgeable := true,
    auto_ip_net := { net_addr := ipOfQuad 10 128 255 0, net_bitlen := 24 },
    edges := [peerB] }

/-- C9 witness: concrete states whose federation community is renamed
from `*fedA` to `*fedB` give identical responses. -/
theorem fed_name_noninterference_witness :
    (jsonrpc_get_communities ("1")
        { base_state with communities := [fedB, acmeCommunity] } none).2.1
      = (jsonrpc_get_communities ("1")
        { base_state with communities := [fedA, acmeCommunity] } none).2.1
    ∧ (jsonrpc_get_edges ("1")
        { base_state with communities := [fedB, acmeCommunity] } none).2.1
      = (jsonrpc_get_edges ("1")
        { base_state with communities := [fedA, acmeCommunity] } none).2.1 :=
  fed_name_noninterference base_state [fedA, acmeCommunity] [fedB, acmeCommunity] ("1") none
    (List.Forall₂.cons
      (by refine ⟨rfl, rfl, rfl, rfl, ?_⟩; intro hx; cases hx)
      (List.Forall₂.cons ⟨rfl, rfl, rfl, rfl, fun _ => rfl⟩ List.Forall₂.nil))

/- ===================== response-shape lemmas ===================== -/

theorem shape_get_verbose (id : String) (eee : RuntimeData) (params : Option String) :
    ∃ mid, (jsonrpc_get_verbose id eee params).2.1 = jsonrpc_result_full id mid 200 :=
  ⟨_, rfl⟩

theorem shape_stop (id : String) (eee : RuntimeData) (params : Option String) :
    ∃ mid, (jsonrpc_stop id eee params).2.1 = jsonrpc_result_full id mid 200 :=
  ⟨_, rfl⟩

theorem shape_get_edges (id : String) (eee : RuntimeData) (params : Option String) :
    ∃ mid, (jsonrpc_get_edges id eee params).2.1 = jsonrpc_result_full id mid 200 :=
  ⟨_, rfl⟩

theorem shape_get_info (id : String) (eee : RuntimeData) (params : Option String) :
    ∃ mid, (jsonrpc_get_info id eee params).2.1 = jsonrpc_result_full id mid 200 :=
  ⟨_, rfl⟩

theorem shape_get_packetstats (id : String) (eee : RuntimeData) (params : Option String) :
    ∃ mid, (jsonrpc_get_packetstats id eee params).2.1 = jsonrpc_result_full id mid 200 :=
  ⟨_, rfl⟩

theorem shape_get_supernodes (id : String) (eee : RuntimeData) (params : Option String) :
    ∃ mid, (jsonrpc_get_supernodes id eee params).2.1 = jsonrpc_result_full id mid 200 :=
  ⟨_, rfl⟩

theorem shape_get_timestamps (id : String) (eee : RuntimeData) (params : Option String) :
    ∃ mid, (jsonrpc_get_timestamps id eee params).2.1 = jsonrpc_result_full id mid 200 :=
  ⟨_, rfl⟩

theorem shape_help (id : String) (eee : RuntimeData) (params : Option String) :
    ∃ mid, (jsonrpc_help id eee params).2.1 = jsonrpc_result_full id mid 200 :=
  ⟨_, rfl⟩

theorem shape_help_events (id : String) (eee : RuntimeData) (params : Option String) :
    ∃ mid, (jsonrpc_help_events id eee params).2.1 = jsonrpc_result_full id mid 200 :=
  ⟨_, rfl⟩

theorem shape_post_test (id : String) (eee : RuntimeData) (params : Option String) :
    ∃ mid, (jsonrpc_post_test id eee params).2.1 = jsonrpc_result_full id mid 200 :=
  ⟨_, rfl⟩

theorem shape_reload_communities (id : String) (eee : RuntimeData) (params : Option String) :
    ∃ mid, (jsonrpc_reload_communities id eee params).2.1 = jsonrpc_result_full id mid 200 :=
  ⟨_, rfl⟩

theorem shape_get_communities (id : String) (eee : RuntimeData) (params : Option String) :
    (∃ mid, (jsonrpc_get_communities id eee params).2.1 = jsonrpc_result_full id mid 200)
    ∨ (jsonrpc_get_communities id eee params).2.1 = jsonrpc_error id 403 ("Forbidden") := by
  unfold jsonrpc_get_communities
  split
  · split
    · exact Or.inr rfl
    · exact Or.inl ⟨_, rfl⟩
  · exact Or.inl ⟨_, rfl⟩

theorem shape_set_verbose (id : String) (eee : RuntimeData) (params : Option String) :
    (∃ mid, (jsonrpc_set_verbose id eee params).2.1 = jsonrpc_result_full id mid 200)
    ∨ (jsonrpc_set_verbose id eee params).2.1 = jsonrpc_error id 400 ("missing param")
    ∨ (jsonrpc_set_verbose id eee params).2.1 = jsonrpc_error id 400 ("expecting array") := by
  cases params with
  | none => exact Or.inr (Or.inl rfl)
  | some p =>
    cases hfc : first_char_is p '[' with
    | false =>
      right
      right
      simp [jsonrpc_set_verbose, hfc]
    | true =>
      left
      simp only [jsonrpc_set_verbose, hfc, Bool.not_true, Bool.false_eq_true, if_false]
      exact ⟨_, rfl⟩

/-- The predicate of the `handle_jsonrpc` lookup loop fails on every
table entry when the method name is not in the closed set. -/
theorem jsonrpc_method_find_eq_none {method : String}
    (h : method ∉ jsonrpc_method_names) : jsonrpc_method_find method = none := by
  unfold jsonrpc_method_find
  apply List.find?_eq_none.mpr
  intro a ha
  simp only [decide_eq_true_eq]
  intro heq
  exact h (heq ▸ List.mem_map_of_mem (fun m => m.1) ha)

theorem exists_mid_of_shape {resp : HttpResponse} {id : String}
    (h : ∃ mid, resp = jsonrpc_result_full id mid 200) :
    ∃ mid, resp.body = jsonrpc_result_head id ++ mid ++ "\x7d" := by
  obtain ⟨mid, hm⟩ := h
  exact ⟨mid, by rw [hm]; rfl⟩

/-- C6: dispatch outcomes of `handle_jsonrpc`: a method outside the
closed set gets the 404 error page; `set_verbose` with missing params
gets a 400 JSON-RPC error; every 200 response is a JSON-RPC 2.0 result
object built from the echoed request id and a result member; and for
ids of at most 8 characters the echoed id is exactly the request's id
(longer ids hit the strncpy truncation bug, see the id-truncation
theorem). -/
theorem jsonrpc_dispatch_status_codes :
    ∀ (eee : RuntimeData) (stack : List Char) (id method : String) (params : Option String),
      (method ∉ jsonrpc_method_names →
        (handle_jsonrpc eee stack id method params).2.1 = render_error
        ∧ (handle_jsonrpc eee stack id method params).2.1.code = 404)
      ∧ (method = "set_verbose" → params = none →
        (handle_jsonrpc eee stack id method params).2.1
          = jsonrpc_error (idbuf_echo id stack) 400 ("missing param")
        ∧ (handle_jsonrpc eee stack id method params).2.1.code = 400)
      ∧ ((handle_jsonrpc eee stack id method params).2.1.code = 200 →
        ∃ mid, (handle_jsonrpc eee stack id method params).2.1.body
          = jsonrpc_result_head (idbuf_echo id stack) ++ mid ++ "\x7d")
      ∧ (id.length ≤ 8 → NULc ∉ id.data → idbuf_echo id stack = id) := by
  intro eee stack id method params
  refine ⟨?_, ?_, ?_, fun h1 h2 => idbuf_echo_short id stack h1 h2⟩
  · intro hnm
    have hf := jsonrpc_method_find_eq_none hnm
    unfold handle_jsonrpc
    rw [hf]
    exact ⟨rfl, rfl⟩
  · intro hm hp
    subst hm
    subst hp
    exact ⟨rfl, rfl⟩
  · intro h200
    rcases hfind : jsonrpc_method_find method with _ | m
    · have h404 : (handle_jsonrpc eee stack id method params).2.1 = render_error := by
        unfold handle_jsonrpc
        rw [hfind]
      rw [h404] at h200
      exact absurd (show (404 : Nat) = 200 from h200) (by decide)
    · have hmem : m ∈ jsonrpc_methods := List.mem_of_find?_eq_some hfind
      have happ : (handle_jsonrpc eee stack id method params)
          = m.2 (idbuf_echo id stack) eee params := by
        unfold handle_jsonrpc
        rw [hfind]
      rw [happ] at h200 ⊢
      simp only [jsonrpc_methods, List.mem_cons, List.not_mem_nil, or_false] at hmem
      rcases hmem with rfl | rfl | rfl | rfl | rfl | rfl | rfl | rfl | rfl | rfl | rfl | rfl | rfl
      · rcases shape_get_communities (idbuf_echo id stack) eee params with hs | herr
        · exact exists_mid_of_shape hs
        · have h200x : (jsonrpc_get_communities (idbuf_echo id stack) eee params).2.1.code
              = 200 := h200
          rw [herr] at h200x
          exact absurd (show (403 : Nat) = 200 from h200x) (by decide)
      · exact exists_mid_of_shape (shape_get_edges (idbuf_echo id stack) eee params)
      · exact exists_mid_of_shape (shape_get_info (idbuf_echo id stack) eee params)
      · exact exists_mid_of_shape (shape_get_packetstats (idbuf_echo id stack) eee params)
      · exact exists_mid_of_shape (shape_get_supernodes (idbuf_echo id stack) eee params)
      · exact exists_mid_of_shape (shape_get_timestamps (idbuf_echo id stack) eee params)
      · exact exists_mid_of_shape (shape_get_verbose (idbuf_echo id stack) eee params)
      · exact exists_mid_of_shape (shape_help (idbuf_echo id stack) eee params)
      · exact exists_mid_of_shape (shape_help_events (idbuf_echo id stack) eee params)
      · exact exists_mid_of_shape (shape_post_test (idbuf_echo id stack) eee params)
      · exact exists_mid_of_shape (shape_reload_communities (idbuf_echo id stack) eee params)
      · rcases shape_set_verbose (idbuf_echo id stack) eee params with hs | herr | herr
        · exact exists_mid_of_shape hs
        · have h200x : (jsonrpc_set_verbose (idbuf_echo id stack) eee params).2.1.code
              = 200 := h200
          rw [herr] at h200x
          exact absurd (show (400 : Nat) = 200 from h200x) (by decide)
        · have h200x : (jsonrpc_set_verbose (idbuf_echo id stack) eee params).2.1.code
              = 200 := h200
          rw [herr] at h200x
          exact absurd (show (400 : Nat) = 200 from h200x) (by decide)
      · exact exists_mid_of_shape (shape_stop (idbuf_echo id stack) eee params)

/-- C6 witness: an unknown method gives 404; `set_verbose` without
params gives 400; a successful `get_verbose` gives a 200 result object;
a short id is echoed exactly. -/
theorem jsonrpc_dispatch_status_codes_witness :
    (("bogus") ∉ jsonrpc_method_names
      ∧ (handle_jsonrpc base_state [] ("1") ("bogus") none).2.1.code = 404)
    ∧ (handle_jsonrpc base_state [] ("1") ("set_verbose") none).2.1.code = 400
    ∧ (∃ mid, (handle_jsonrpc base_state [] ("1") ("get_verbose") none).2.1.body
        = jsonrpc_result_head (idbuf_echo ("1") []) ++ mid ++ "\x7d")
    ∧ idbuf_echo ("1") [] = "1" := by
  have hno : ("bogus") ∉ jsonrpc_method_names := by decide
  refine ⟨⟨hno, ?_⟩, ?_, ?_, ?_⟩
  · exact (jsonrpc_dispatch_status_codes base_state [] ("1") ("bogus") none).1 hno |>.2
  · exact ((jsonrpc_dispatch_status_codes base_state [] ("1") ("set_verbose") none).2.1
      rfl rfl).2
  · exact (jsonrpc_dispatch_status_codes base_state [] ("1") ("get_verbose") none).2.2.1 rfl
  · exact (jsonrpc_dispatch_status_codes base_state [] ("1") ("get_verbose")
      none).2.2.2 (by decide) (by decide)

end N3nSpec
